import Mathlib

/-!
Verification of the AQ_SpikeAlerts core against its natural-language
specification.  The definitions below are a shallow embedding of
`src/Scripts/python/Get_spikes_df.py` and `src/Scripts/python/Send_Alerts.py`:
pandas dataframes become lists of records, nullable columns become `Option`
fields with pandas' elementwise NaN comparison semantics, SQL queries against
the PostgreSQL/PostGIS store become explicit functions over a `Store` value,
and the two external effects of `Get_spikes_df` (reading the clock and issuing
the HTTP request) are recorded in an event trace so that their order can be
stated.
-/

namespace SpikeAlerts

/-- One row of the PurpleAir API response, as parsed by `Get_spikes_df`
(`pd.DataFrame(data, columns = col_names)`).  Every column is nullable, hence
`Option`.  `pm2_5_10minute` stands for the `pm2.5_10minute` column;
`last_seen` is an epoch timestamp in seconds. -/
structure RawRecord where
  sensor_index : Option Int
  pm2_5_10minute : Option Rat
  channel_flags : Option Int
  channel_state : Option Int
  last_seen : Option Int
deriving DecidableEq, Repr

/-- A row of `clean_df` after `clean_df.rename(columns = {'pm2.5_10minute':'pm25'})`:
the same record with the reading column under its stable output name `pm25`. -/
structure CleanRecord where
  sensor_index : Option Int
  pm25 : Option Rat
  channel_flags : Option Int
  channel_state : Option Int
  last_seen : Option Int
deriving DecidableEq, Repr

/-- A row of the returned `spikes_df` (`[['sensor_index', 'pm25']]`). -/
structure SpikeRow where
  sensor_index : Option Int
  pm25 : Option Rat
deriving DecidableEq, Repr

/-- Pandas elementwise `series != c` on a nullable integer column:
`NaN != c` evaluates to `True`. -/
def neOptInt : Option Int → Int → Bool
  | none, _ => true
  | some v, c => v != c

/-- Pandas elementwise `series == c` on a nullable integer column:
`NaN == c` evaluates to `False`. -/
def eqOptInt : Option Int → Int → Bool
  | none, _ => false
  | some v, c => v == c

/-- Pandas elementwise `series < c` on a nullable integer column:
`NaN < c` evaluates to `False`. -/
def ltOptInt : Option Int → Int → Bool
  | none, _ => false
  | some v, c => v < c

/-- Pandas elementwise `series < c` on a nullable float column:
`NaN < c` evaluates to `False`. -/
def ltOptRat : Option Rat → Rat → Bool
  | none, _ => false
  | some v, c => v < c

/-- Pandas elementwise `series >= c` on a nullable float column:
`NaN >= c` evaluates to `False`. -/
def geOptRat : Option Rat → Rat → Bool
  | none, _ => false
  | some v, c => c ≤ v

/-- The `last_seen` correction applied to every fetched row:
`pd.to_datetime(sensors_df['last_seen'], unit='s') - pd.Timedelta(hours=5)`
(the provider reports UTC, five hours ahead of local time). -/
def correct_last_seen (r : RawRecord) : RawRecord :=
  { r with last_seen := r.last_seen.map (fun t => t - 5 * 60 * 60) }

/-- The fetched table after the `last_seen` correction (`sensors_df` in the
source). -/
def sensors_df (apiRows : List RawRecord) : List RawRecord :=
  apiRows.map correct_last_seen

/-- The row-quality mask of `Get_spikes_df`:
`flags = (sensors_df.channel_flags != 0) | (sensors_df.channel_state == 0) |
(sensors_df.last_seen < dt.datetime.now() - dt.timedelta(minutes=60))`,
with `now` the value of `dt.datetime.now()` in seconds. -/
def flaggedByRule (now : Int) (r : RawRecord) : Bool :=
  neOptInt r.channel_flags 0 || eqOptInt r.channel_state 0 ||
    ltOptInt r.last_seen (now - 60 * 60)

/-- The column rename `{'pm2.5_10minute':'pm25'}` applied to a surviving row. -/
def renameCols (r : RawRecord) : CleanRecord :=
  { sensor_index := r.sensor_index
    pm25 := r.pm2_5_10minute
    channel_flags := r.channel_flags
    channel_state := r.channel_state
    last_seen := r.last_seen }

/-- The `dropna()` predicate: the row has no null field. -/
def isNullFree (c : CleanRecord) : Bool :=
  c.sensor_index.isSome && c.pm25.isSome && c.channel_flags.isSome &&
    c.channel_state.isSome && c.last_seen.isSome

/-- The clean table of `Get_spikes_df`, built exactly in the source's order:
`clean_df = sensors_df[~flags].copy()`, then the column rename, then
`clean_df = clean_df[clean_df.pm25 < 1000]`, then `clean_df = clean_df.dropna()`. -/
def clean_df (now : Int) (rows : List RawRecord) : List CleanRecord :=
  (((rows.filter (fun r => !flaggedByRule now r)).map renameCols).filter
      (fun c => ltOptRat c.pm25 1000)).filter isNullFree

/-- The spike extraction step:
`spikes_df = clean_df[clean_df.pm25 >= spike_threshold][['sensor_index', 'pm25']]`. -/
def spikes_of (spike_threshold : Rat) (clean : List CleanRecord) : List SpikeRow :=
  (clean.filter (fun c => geOptRat c.pm25 spike_threshold)).map
    (fun c => { sensor_index := c.sensor_index, pm25 := c.pm25 })

/-- The sensor identifiers of the clean table (`clean_df.sensor_index`). -/
def clean_ids (now : Int) (rows : List RawRecord) : List (Option Int) :=
  (clean_df now rows).map (fun c => c.sensor_index)

/-- The flagged output:
`flagged_df = sensors_df[~sensors_df.sensor_index.isin(clean_df.sensor_index)]`
followed by `flagged_df.reset_index(drop=True).sensor_index`. -/
def flagged_ids (now : Int) (rows : List RawRecord) : List (Option Int) :=
  (rows.filter (fun r => !(clean_ids now rows).contains r.sensor_index)).map
    (fun r => r.sensor_index)

/-- The rows that survive the quality mask but are then dropped as unusable
(reading not `< 1000` under NaN semantics, or some null field removed by
`dropna()`). -/
def dropped_unusable (now : Int) (rows : List RawRecord) : List RawRecord :=
  rows.filter (fun r =>
    !flaggedByRule now r &&
      !(ltOptRat r.pm2_5_10minute 1000 && isNullFree (renameCols r)))

/-- A raw record is unusable in the sense of the spec: its reading is `≥ 1000`
(or null) or some field is null. -/
def unusable (r : RawRecord) : Bool :=
  !ltOptRat r.pm2_5_10minute 1000 || !isNullFree (renameCols r)

/-- The field list of the batched API request. -/
def fields_list : List String :=
  ["pm2.5_10minute", "channel_flags", "channel_state", "last_seen"]

/-- `fields_string = 'fields=' + '%2C'.join(fields)`. -/
def fields_string : String :=
  "fields=" ++ String.intercalate "%2C" fields_list

/-- `sensor_string = 'show_only=' + '%2C'.join(sensor_ids.astype(str))`. -/
def sensor_string (sensor_ids : List Int) : String :=
  "show_only=" ++ String.intercalate "%2C" (sensor_ids.map toString)

/-- `query_string = '&'.join([fields_string, sensor_string])`. -/
def query_string (sensor_ids : List Int) : String :=
  String.intercalate "&" [fields_string, sensor_string sensor_ids]

/-- The two external effects `Get_spikes_df` performs, in order: reading the
clock in a named timezone, and issuing the HTTP GET with a query string. -/
inductive ApiEvent where
  | clockNow (tz : String)
  | httpGet (query : String)
deriving DecidableEq, Repr

/-- The environment a single invocation of `Get_spikes_df` runs in: the value
`dt.datetime.now(pytz.timezone('America/Chicago'))` returns, the value the
naive `dt.datetime.now()` on the staleness line returns (seconds), and the
rows of the API response (provider `last_seen` still uncorrected). -/
structure World where
  chicagoNow : Int
  naiveNow : Int
  apiRows : List RawRecord
deriving DecidableEq, Repr

/-- The three returned values of `Get_spikes_df`, plus the recorded trace of
its two external effects. -/
structure GetSpikesResult where
  spikes_df : List SpikeRow
  runtime : Int
  flagged_sensor_ids : List (Option Int)
  trace : List ApiEvent
deriving DecidableEq, Repr

/-- `Get_spikes_df(purpleAir_api, sensor_ids, spike_threshold)` from
`src/Scripts/python/Get_spikes_df.py`: build the query string, capture
`runtime`, call the API, correct `last_seen`, build the clean table, extract
spikes, and compute the flagged sensor identifiers. -/
def Get_spikes_df (w : World) (sensor_ids : List Int) (spike_threshold : Rat) :
    GetSpikesResult :=
  let q := query_string sensor_ids
  let runtime := w.chicagoNow
  let sdf := sensors_df w.apiRows
  let cdf := clean_df w.naiveNow sdf
  { spikes_df := spikes_of spike_threshold cdf
    runtime := runtime
    flagged_sensor_ids := flagged_ids w.naiveNow sdf
    trace := [ApiEvent.clockNow "America/Chicago", ApiEvent.httpGet q] }

/-- A point geometry in the planar (meters-based) coordinate system
EPSG:26915 that the store's `ST_Transform(geometry, 26915)` produces. -/
structure Point where
  x : Int
  y : Int
deriving DecidableEq, Repr

/-- A row of the `"PurpleAir Stations"` table. -/
structure Station where
  sensor_index : Int
  geometry : Point
deriving DecidableEq, Repr

/-- A row of the `"Sign Up Information"` table. -/
structure User where
  record_id : Int
  geometry : Point
  subscribed : Bool
  active_alerts : List Int
  cached_alerts : List Int
  messages_sent : Int
  last_messaged : Option Int
deriving DecidableEq, Repr

/-- A row of the `"Archived Alerts Acute PurpleAir"` table. -/
structure Alert where
  alert_index : Int
  start_time : Int
  max_reading : Rat
  sensor_indices : List Int
deriving DecidableEq, Repr

/-- A row of the `"Reports Archive"` table.  The aggregated fields are
nullable because SQL aggregates over zero rows yield NULL. -/
structure Report where
  report_id : Int
  start_time : Option Int
  duration_minutes : Option Int
  max_reading : Option Rat
  sensor_indices : List Int
  cached_alerts : List Int
deriving DecidableEq, Repr

/-- The persistent relational/spatial store the Send_Alerts functions query
and mutate. -/
structure Store where
  stations : List Station
  users : List User
  archived_alerts : List Alert
  reports : List Report
deriving DecidableEq, Repr

/-- Squared Euclidean distance between two planar points. -/
def dist2 (p q : Point) : Int :=
  (p.x - q.x) * (p.x - q.x) + (p.y - q.y) * (p.y - q.y)

/-- PostGIS `ST_DWithin(g1, g2, d)` on planar geometries: true exactly when
the Euclidean distance between the points is `≤ d`.  Stated on squared
distances to stay within `Rat`: for `d ≥ 0`, `dist ≤ d ↔ dist² ≤ d²`, and for
`d < 0` the predicate is false since distances are nonnegative. -/
def ST_DWithin (p q : Point) (d : Int) : Bool :=
  decide (0 ≤ d) && decide (dist2 p q ≤ d * d)

/-- `Users_nearby_sensor(pg_connection_dict, sensor_index, distance)` from
`src/Scripts/python/Send_Alerts.py`.  The `sensor` CTE selects the station
with the given `sensor_index` (empty if unknown, making the implicit cross
join empty); the main query keeps users with `subscribed = TRUE` and
`ST_DWithin(ST_Transform(u.geometry,26915), ST_Transform(s.geometry,26915),
distance)`.  The transform to EPSG:26915 is the external PostGIS projection,
passed here as `T`. -/
def Users_nearby_sensor (T : Point → Point) (st : Store) (sensor_index : Int)
    (distance : Int) : List Int :=
  match st.stations.find? (fun s => s.sensor_index == sensor_index) with
  | none => []
  | some s =>
      (st.users.filter (fun u =>
        u.subscribed && ST_DWithin (T u.geometry) (T s.geometry) distance)).map
        (fun u => u.record_id)

/-- `Users_to_message_new_alert(pg_connection_dict, record_ids)`:
`SELECT record_id FROM "Sign Up Information" WHERE active_alerts = '{}' AND
cached_alerts = '{}' AND record_id = ANY (record_ids)`.  A pure SELECT: the
store is returned unchanged alongside the result list. -/
def Users_to_message_new_alert (st : Store) (record_ids : List Int) :
    Store × List Int :=
  (st,
    (st.users.filter (fun u =>
      u.active_alerts.isEmpty && u.cached_alerts.isEmpty &&
        record_ids.contains u.record_id)).map (fun u => u.record_id))

/-- A Python runtime error raised by the embedded code. -/
inductive PyError where
  | nameError (name : String)
  | indexError
deriving DecidableEq, Repr

/-- SQL `MIN` aggregate over an integer column (NULL on zero rows). -/
def sql_min (l : List Int) : Option Int :=
  l.foldl (fun acc t =>
    match acc with
    | none => some t
    | some m => some (min m t)) none

/-- SQL `MAX` aggregate over a numeric column (NULL on zero rows). -/
def sql_max (l : List Rat) : Option Rat :=
  l.foldl (fun acc t =>
    match acc with
    | none => some t
    | some m => some (max m t)) none

/-- `DATE_PART` arithmetic of the report INSERT:
`((DATE_PART('day', td) * 24 + DATE_PART('hour', td)) * 60 +
DATE_PART('minute', td))` for a nonnegative interval of `sec` seconds, whose
day part is `sec / 86400` and whose time part is `sec % 86400`. -/
def duration_minutes_of_interval (sec : Int) : Int :=
  (sec / 86400 * 24 + sec % 86400 / 3600) * 60 + sec % 86400 % 3600 / 60

/-- The SQL command of `initialize_report` as it would execute with the
placeholder `report_id` bound to an integer value: look up the user's
`cached_alerts`, aggregate the referenced archived alerts (`MIN(start_time)`,
the `DATE_PART` duration of `CURRENT_TIMESTAMP − MIN(start_time)`,
`MAX(max_reading)`, distinct union of `sensor_indices`), insert the report
row, then `SELECT duration_minutes, max_reading` for that `report_id` and
unpack `cur.fetchall()[0]` (an IndexError when no row was inserted, i.e. when
the `alert_cache` CTE is empty because the user is unknown). -/
def initialize_report_sql (record_id report_id : Int) (st : Store) (now : Int) :
    Except PyError (Store × Option Int × Option Rat) :=
  match st.users.find? (fun u => u.record_id == record_id) with
  | none => Except.error PyError.indexError
  | some u =>
      let alerts := st.archived_alerts.filter
        (fun a => u.cached_alerts.contains a.alert_index)
      let start_time := sql_min (alerts.map (fun a => a.start_time))
      let duration := start_time.map
        (fun s0 => duration_minutes_of_interval (now - s0))
      let maxr := sql_max (alerts.map (fun a => a.max_reading))
      let sensors := (alerts.map (fun a => a.sensor_indices)).flatten.dedup
      let row : Report :=
        { report_id := report_id
          start_time := start_time
          duration_minutes := duration
          max_reading := maxr
          sensor_indices := sensors
          cached_alerts := u.cached_alerts }
      Except.ok ({ st with reports := st.reports ++ [row] }, duration, maxr)

/-- The integer-valued names bound in the scope of `initialize_report` when
line 162 of `src/Scripts/python/Send_Alerts.py` builds the SQL command: its
parameters `record_id` and `reports_for_day` (the third parameter
`pg_connection_dict` and the locals `conn`, `cur` hold the connection objects,
and no module-level binding of `report_id` exists anywhere in the file). -/
def initialize_report_env (record_id reports_for_day : Int) :
    List (String × Int) :=
  [("record_id", record_id), ("reports_for_day", reports_for_day)]

/-- `initialize_report(record_id, reports_for_day, pg_connection_dict)` from
`src/Scripts/python/Send_Alerts.py`.  The source formats its SQL command with
`sql.Literal(report_id)`, so Python first evaluates the name `report_id`; the
name is unbound in the function's scope, so every invocation raises
`NameError` before any SQL is executed.  Were the name bound, the command of
`initialize_report_sql` would run. -/
def initialize_report (record_id reports_for_day : Int) (st : Store)
    (now : Int) : Except PyError (Store × Option Int × Option Rat) :=
  match (initialize_report_env record_id reports_for_day).lookup "report_id" with
  | none => Except.error (PyError.nameError "report_id")
  | some report_id => initialize_report_sql record_id report_id st now

/-- `get_phone_numbers(users)`: the stubbed contact lookup
`numbers.append(int(record_id*100))`. -/
def get_phone_numbers (users : List Int) : List Int :=
  users.map (fun record_id => record_id * 100)

/-- `update_user_table(record_ids, times)` from
`src/Scripts/python/Send_Alerts.py`: it SELECTs the `messages_sent` values of
the listed users and computes the incremented list
`messages_sent_new = [v+1 for v in messages_sent_list]`, but the UPDATE
statement is not implemented (the source prints
"fancy SQL to update the sign up table still pending" and closes the
connection), so the store is returned unchanged next to the computed list. -/
def update_user_table (st : Store) (record_ids : List Int) (times : List Int) :
    Store × List Int :=
  let messages_sent_list :=
    (st.users.filter (fun u => record_ids.contains u.record_id)).map
      (fun u => u.messages_sent)
  let messages_sent_new := messages_sent_list.map (fun v => v + 1)
  (st, messages_sent_new)

/-- `send_all_messages(record_ids, messages)`: resolve phone numbers, send
the texts through the external delivery collaborator (whose returned
delivery timestamps are the parameter `times`), then run
`update_user_table`.  Returns the resulting store. -/
def send_all_messages (st : Store) (record_ids : List Int)
    (messages : List String) (times : List Int) : Store :=
  let numbers := get_phone_numbers record_ids
  (update_user_table st record_ids times).1

/-! ### Helper lemmas about the cleaning pipeline -/

theorem mem_clean_df {now : Int} {rows : List RawRecord} {c : CleanRecord} :
    c ∈ clean_df now rows ↔
      ∃ r, r ∈ rows ∧ flaggedByRule now r = false ∧ c = renameCols r ∧
        ltOptRat c.pm25 1000 = true ∧ isNullFree c = true := by
  unfold clean_df
  simp only [List.mem_filter, List.mem_map, Bool.not_eq_true']
  constructor
  · rintro ⟨⟨⟨r, ⟨hr, hf⟩, hc⟩, h1000⟩, hnull⟩
    exact ⟨r, hr, hf, hc.symm, h1000, hnull⟩
  · rintro ⟨r, hr, hf, hc, h1000, hnull⟩
    exact ⟨⟨⟨r, ⟨hr, hf⟩, hc.symm⟩, h1000⟩, hnull⟩

theorem clean_conditions (now : Int) (r : RawRecord) :
    (flaggedByRule now r = false ∧ ltOptRat (renameCols r).pm25 1000 = true ∧
        isNullFree (renameCols r) = true) ↔
      (r.channel_flags = some 0 ∧ (∃ s, r.channel_state = some s ∧ s ≠ 0) ∧
        (∃ t, r.last_seen = some t ∧ now - 60 * 60 ≤ t) ∧
        (∃ p, r.pm2_5_10minute = some p ∧ p < 1000) ∧
        r.sensor_index.isSome = true) := by
  obtain ⟨si, pm, cf, cs, ls⟩ := r
  simp only [flaggedByRule, renameCols, isNullFree, ltOptRat, neOptInt,
    eqOptInt, ltOptInt]
  cases si <;> cases pm <;> cases cs <;> cases cf <;> cases ls <;>
    (simp [not_lt]; try tauto)

/-- C1: for every raw telemetry record processed by `Get_spikes_df`, the
record is in the clean set if and only if `channel_flags = Normal (0)`,
`channel_state ≠ NoPM (0)`, `last_seen ≥ now − 60 minutes`, its reading is
`< 1000`, and no field is null. -/
theorem clean_df_membership_iff (now : Int) (rows : List RawRecord)
    (c : CleanRecord) :
    c ∈ clean_df now rows ↔
      ∃ r, r ∈ rows ∧ c = renameCols r ∧
        r.channel_flags = some 0 ∧
        (∃ s, r.channel_state = some s ∧ s ≠ 0) ∧
        (∃ t, r.last_seen = some t ∧ now - 60 * 60 ≤ t) ∧
        (∃ p, r.pm2_5_10minute = some p ∧ p < 1000) ∧
        r.sensor_index.isSome = true := by
  rw [mem_clean_df]
  constructor
  · rintro ⟨r, hr, hf, hc, h1000, hnull⟩
    subst hc
    have h := (clean_conditions now r).mp ⟨hf, h1000, hnull⟩
    exact ⟨r, hr, rfl, h⟩
  · rintro ⟨r, hr, hc, h⟩
    subst hc
    have h2 := (clean_conditions now r).mpr h
    exact ⟨r, hr, h2.1, rfl, h2.2.1, h2.2.2⟩

/-- A concrete healthy record: flags Normal, channels on, fresh, reading 40. -/
def c1_row : RawRecord :=
  { sensor_index := some 1, pm2_5_10minute := some 40, channel_flags := some 0,
    channel_state := some 3, last_seen := some 0 }

/-- Witness for C1 at a concrete healthy record. -/
theorem clean_df_membership_iff_witness :
    renameCols c1_row ∈ clean_df 0 [c1_row] :=
  (clean_df_membership_iff 0 [c1_row] (renameCols c1_row)).mpr
    ⟨c1_row, List.mem_singleton.mpr rfl, rfl, rfl,
      ⟨3, rfl, by decide⟩, ⟨0, rfl, by decide⟩, ⟨40, rfl, by decide⟩, rfl⟩

/-! ### C2: unusable records and the flagged output -/

/-- A raw API row whose reading hits the sanity ceiling (1000) but which is
otherwise healthy: flags Normal, channels on, provider `last_seen = 18000`
so that the corrected value is 0. -/
def c2_raw : RawRecord :=
  { sensor_index := some 1, pm2_5_10minute := some 1000,
    channel_flags := some 0, channel_state := some 3, last_seen := some 18000 }

/-- A world delivering exactly `c2_raw`. -/
def c2_world : World :=
  { chicagoNow := 0, naiveNow := 0, apiRows := [c2_raw] }

/-- C2 counterexample: a record with reading `≥ 1000` (here exactly 1000) is
claimed to appear in neither returned output, yet its sensor identifier is in
the returned `flagged_sensor_ids` of `Get_spikes_df`. -/
theorem unusable_in_flagged_output_cx :
    c2_raw.pm2_5_10minute = some 1000 ∧
      some 1 ∈ (Get_spikes_df c2_world [1] 35).flagged_sensor_ids :=
  ⟨rfl, by decide⟩

/-- C2 (amended): every raw record with reading `≥ 1000` or a null field is
excluded from the clean output, but is not excluded from flagged-for-reporting:
its sensor identifier appears in the flagged-sensors output whenever no clean
record shares that identifier. -/
theorem unusable_excluded_from_clean_but_flagged (now : Int)
    (rows : List RawRecord) (r : RawRecord) (hr : r ∈ rows)
    (hu : unusable r = true) :
    renameCols r ∉ clean_df now rows ∧
      (r.sensor_index ∉ clean_ids now rows →
        r.sensor_index ∈ flagged_ids now rows) := by
  constructor
  · intro hmem
    rw [mem_clean_df] at hmem
    obtain ⟨r2, _, _, hc, h1000, hnull⟩ := hmem
    have hu2 : ltOptRat r.pm2_5_10minute 1000 = false ∨
        isNullFree (renameCols r) = false := by
      simpa [unusable] using hu
    rcases hu2 with h | h
    · rw [show (renameCols r).pm25 = r.pm2_5_10minute from rfl, h] at h1000
      exact Bool.false_ne_true h1000
    · rw [h] at hnull
      exact Bool.false_ne_true hnull
  · intro hnot
    unfold flagged_ids
    simp only [List.mem_map, List.mem_filter]
    exact ⟨r, ⟨hr, by simp [hnot]⟩, rfl⟩

/-- Witness for the amended C2 at the concrete unusable record `c2_raw`. -/
theorem unusable_excluded_from_clean_but_flagged_witness :
    c2_raw.sensor_index ∈ flagged_ids 0 [c2_raw] :=
  (unusable_excluded_from_clean_but_flagged 0 [c2_raw] c2_raw (by decide)
      (by decide)).2 (by decide)

/-! ### C6: the spike extractor -/

theorem mem_spikes_of {th : Rat} {clean : List CleanRecord} {s : SpikeRow} :
    s ∈ spikes_of th clean ↔
      ∃ c, c ∈ clean ∧ (∃ p, c.pm25 = some p ∧ th ≤ p) ∧
        s = { sensor_index := c.sensor_index, pm25 := c.pm25 } := by
  unfold spikes_of
  simp only [List.mem_map, List.mem_filter]
  constructor
  · rintro ⟨c, ⟨hc, hge⟩, hs⟩
    refine ⟨c, hc, ?_, hs.symm⟩
    cases hp : c.pm25 with
    | none => rw [hp] at hge; exact absurd hge (by simp [geOptRat])
    | some p => exact ⟨p, rfl, by simpa [geOptRat, hp] using hge⟩
  · rintro ⟨c, hc, ⟨p, hp, hpth⟩, hs⟩
    exact ⟨c, ⟨hc, by simp [geOptRat, hp, hpth]⟩, hs.symm⟩

/-- C6 (amended): the Spike Extractor output is exactly the clean records
with reading `≥ threshold`, with the reading under the renamed output field;
threshold 0 returns every clean record whose reading is nonnegative;
a threshold above every clean reading returns the empty list; empty clean
input returns the empty list. -/
theorem spikes_of_spec (th : Rat) (clean : List CleanRecord) :
    (∀ s, s ∈ spikes_of th clean ↔
        ∃ c, c ∈ clean ∧ (∃ p, c.pm25 = some p ∧ th ≤ p) ∧
          s = { sensor_index := c.sensor_index, pm25 := c.pm25 }) ∧
    (∀ c, c ∈ clean → ∀ p, c.pm25 = some p → 0 ≤ p →
        ({ sensor_index := c.sensor_index, pm25 := c.pm25 } : SpikeRow) ∈
          spikes_of 0 clean) ∧
    ((∀ c, c ∈ clean → ∀ p, c.pm25 = some p → p < th) →
        spikes_of th clean = []) ∧
    (clean = [] → spikes_of th clean = []) := by
  refine ⟨fun s => mem_spikes_of, ?_, ?_, ?_⟩
  · intro c hc p hp hp0
    exact mem_spikes_of.mpr ⟨c, hc, ⟨p, hp, hp0⟩, rfl⟩
  · intro hall
    unfold spikes_of
    rw [List.filter_eq_nil_iff.mpr, List.map_nil]
    intro c hc
    cases hp : c.pm25 with
    | none => simp [geOptRat]
    | some p => simpa [geOptRat, not_le] using hall c hc p hp
  · intro h
    subst h
    rfl

/-- A raw API row whose reading is negative (sensors report small negative
concentrations) but which is otherwise healthy. -/
def c6_raw : RawRecord :=
  { sensor_index := some 7, pm2_5_10minute := some (-1),
    channel_flags := some 0, channel_state := some 3, last_seen := some 0 }

/-- C6 counterexample: with threshold 0 the spike output misses the clean
record whose reading is −1, so "threshold = 0 returns all clean records" is
false. -/
theorem spike_threshold_zero_cx :
    clean_df 0 [c6_raw] ≠ [] ∧ spikes_of 0 (clean_df 0 [c6_raw]) = [] :=
  ⟨by decide, by decide⟩

/-- A concrete clean record with reading 40 for the C6 witness. -/
def c6_wrow : CleanRecord :=
  { sensor_index := some 1, pm25 := some 40, channel_flags := some 0,
    channel_state := some 3, last_seen := some 0 }

/-- Witness for the amended C6: the nonnegative clean reading 40 is returned
at threshold 0. -/
theorem spikes_of_spec_witness :
    ({ sensor_index := some 1, pm25 := some 40 } : SpikeRow) ∈
      spikes_of 0 [c6_wrow] :=
  (spikes_of_spec 5 [c6_wrow]).2.1 c6_wrow (by decide) 40 rfl (by decide)

/-! ### C8 and C10: partition and disjointness of the outputs -/

theorem clean_ids_subset {now : Int} {rows : List RawRecord} {i : Option Int}
    (h : i ∈ clean_ids now rows) :
    i ∈ rows.map (fun r => r.sensor_index) := by
  unfold clean_ids at h
  rcases List.mem_map.mp h with ⟨c, hc, hi⟩
  rcases mem_clean_df.mp hc with ⟨r, hr, _, hcr, _, _⟩
  refine List.mem_map.mpr ⟨r, hr, ?_⟩
  rw [← hi, hcr]
  rfl

theorem not_clean_of_mem_flagged {now : Int} {rows : List RawRecord}
    {i : Option Int} (h : i ∈ flagged_ids now rows) :
    i ∉ clean_ids now rows := by
  unfold flagged_ids at h
  rcases List.mem_map.mp h with ⟨r, hrf, hir⟩
  have h2 := (List.mem_filter.mp hrf).2
  simp only [Bool.not_eq_true'] at h2
  intro hci
  rw [hir] at h2
  simp [hci] at h2

theorem spike_ids_subset_clean {th : Rat} {now : Int} {rows : List RawRecord}
    {i : Option Int}
    (h : i ∈ (spikes_of th (clean_df now rows)).map (fun s => s.sensor_index)) :
    i ∈ clean_ids now rows := by
  rcases List.mem_map.mp h with ⟨s, hs, hi⟩
  rcases mem_spikes_of.mp hs with ⟨c, hc, _, hsc⟩
  refine List.mem_map.mpr ⟨c, hc, ?_⟩
  rw [← hi, hsc]

/-- C8: the sensor identifiers of the raw input are exactly covered by the
clean set, the returned flagged set, and the rows dropped as unusable; and no
sensor identifier is in both the clean set and the flagged set. -/
theorem get_spikes_partition_spec (now : Int) (rows : List RawRecord) :
    (∀ i, i ∈ rows.map (fun r => r.sensor_index) ↔
        (i ∈ clean_ids now rows ∨ i ∈ flagged_ids now rows ∨
          i ∈ (dropped_unusable now rows).map (fun r => r.sensor_index))) ∧
    (∀ i, i ∈ clean_ids now rows → i ∉ flagged_ids now rows) := by
  constructor
  · intro i
    constructor
    · intro hi
      rcases List.mem_map.mp hi with ⟨r, hr, hir⟩
      by_cases hc : i ∈ clean_ids now rows
      · exact Or.inl hc
      · refine Or.inr (Or.inl ?_)
        unfold flagged_ids
        refine List.mem_map.mpr ⟨r, List.mem_filter.mpr ⟨hr, ?_⟩, hir⟩
        rw [hir]
        simp [hc]
    · rintro (h | h | h)
      · exact clean_ids_subset h
      · unfold flagged_ids at h
        rcases List.mem_map.mp h with ⟨r, hrf, hir⟩
        exact List.mem_map.mpr ⟨r, (List.mem_filter.mp hrf).1, hir⟩
      · unfold dropped_unusable at h
        rcases List.mem_map.mp h with ⟨r, hrf, hir⟩
        exact List.mem_map.mpr ⟨r, (List.mem_filter.mp hrf).1, hir⟩
  · intro i hci hfi
    exact not_clean_of_mem_flagged hfi hci

/-- Witness for C8: the healthy record's identifier is clean, hence not
flagged. -/
theorem get_spikes_partition_spec_witness :
    some 1 ∉ flagged_ids 0 [c1_row] :=
  (get_spikes_partition_spec 0 [c1_row]).2 (some 1) (by decide)

/-- C10: no sensor identifier appears in both returned outputs `spikes_df`
and `flagged_sensor_ids` of `Get_spikes_df`. -/
theorem spikes_flagged_disjoint (w : World) (sensor_ids : List Int)
    (spike_threshold : Rat) (i : Option Int)
    (hs : i ∈ (Get_spikes_df w sensor_ids spike_threshold).spikes_df.map
        (fun s => s.sensor_index)) :
    i ∉ (Get_spikes_df w sensor_ids spike_threshold).flagged_sensor_ids := by
  intro hf
  simp only [Get_spikes_df] at hs hf
  exact not_clean_of_mem_flagged hf (spike_ids_subset_clean hs)

/-- A world delivering a single healthy spiking record (provider `last_seen`
18000, so the corrected value is 0 and the row is fresh), for the C10
witness. -/
def c10_world : World :=
  { chicagoNow := 0, naiveNow := 0,
    apiRows := [{ sensor_index := some 1, pm2_5_10minute := some 40,
                  channel_flags := some 0, channel_state := some 3,
                  last_seen := some 18000 }] }

/-- Witness for C10 at a world with one clean spiking sensor. -/
theorem spikes_flagged_disjoint_witness :
    some 1 ∉ (Get_spikes_df c10_world [1] 35).flagged_sensor_ids :=
  spikes_flagged_disjoint c10_world [1] 35 (some 1) (by decide)

/-! ### C9: fetch contract of Get_spikes_df -/

/-- C9: the trace of `Get_spikes_df` reads the clock in the fixed named
timezone before issuing the HTTP request for the batched query, the returned
runtime is that clock value, and every `last_seen` of the fetched table is
the provider value minus exactly five hours. -/
theorem get_spikes_fetch_contract (w : World) (sensor_ids : List Int)
    (spike_threshold : Rat) :
    (Get_spikes_df w sensor_ids spike_threshold).trace =
        [ApiEvent.clockNow "America/Chicago",
          ApiEvent.httpGet (query_string sensor_ids)] ∧
    (∃ i j, i < j ∧
        (Get_spikes_df w sensor_ids spike_threshold).trace.get? i =
          some (ApiEvent.clockNow "America/Chicago") ∧
        (Get_spikes_df w sensor_ids spike_threshold).trace.get? j =
          some (ApiEvent.httpGet (query_string sensor_ids))) ∧
    (Get_spikes_df w sensor_ids spike_threshold).runtime = w.chicagoNow ∧
    sensors_df w.apiRows =
      w.apiRows.map (fun r =>
        { r with last_seen := r.last_seen.map (fun t => t - 5 * 60 * 60) }) :=
  ⟨rfl, ⟨0, 1, by omega, rfl, rfl⟩, rfl, rfl⟩

/-! ### C3: initialize_report -/

/-- For a nonnegative interval the `DATE_PART` arithmetic of the report
INSERT is the floor-to-minute of the elapsed seconds (supporting the intent
of the report duration field). -/
theorem duration_minutes_floor (sec : Int) (h : 0 ≤ sec) :
    duration_minutes_of_interval sec = sec / 60 ∧ 0 ≤ sec / 60 := by
  unfold duration_minutes_of_interval
  omega

/-- C3 (code evaluation): every invocation of `initialize_report` raises
`NameError` on the unbound name `report_id` while formatting its SQL command,
so no report row is ever persisted and no pair is ever returned. -/
theorem initialize_report_raises_name_error (record_id reports_for_day : Int)
    (st : Store) (now : Int) :
    initialize_report record_id reports_for_day st now =
      Except.error (PyError.nameError "report_id") := rfl

/-! ### C4: send_all_messages / update_user_table -/

/-- C4 (code evaluation): `send_all_messages` leaves the store unchanged —
`update_user_table` computes the incremented `messages_sent` values but its
UPDATE statement is unimplemented, so no user's `messages_sent` or
`last_messaged` is ever persisted. -/
theorem send_all_messages_leaves_store_unchanged (st : Store)
    (record_ids : List Int) (messages : List String) (times : List Int) :
    send_all_messages st record_ids messages times = st ∧
      (update_user_table st record_ids times).2 =
        (st.users.filter (fun u => record_ids.contains u.record_id)).map
          (fun u => u.messages_sent + 1) := by
  refine ⟨rfl, ?_⟩
  unfold update_user_table
  simp [List.map_map, Function.comp]

/-! ### C5: Users_to_message_new_alert -/

/-- C5: `Users_to_message_new_alert` mutates nothing, returns exactly the
candidate identifiers whose user row has empty `active_alerts` and empty
`cached_alerts`, and a second call on the resulting store returns the same
list. -/
theorem users_to_message_new_alert_spec (st : Store) (record_ids : List Int) :
    (Users_to_message_new_alert st record_ids).1 = st ∧
    (∀ r, r ∈ (Users_to_message_new_alert st record_ids).2 ↔
        ∃ u, u ∈ st.users ∧ u.record_id = r ∧ u.active_alerts = [] ∧
          u.cached_alerts = [] ∧ r ∈ record_ids) ∧
    (Users_to_message_new_alert (Users_to_message_new_alert st record_ids).1
        record_ids).2 = (Users_to_message_new_alert st record_ids).2 := by
  refine ⟨rfl, ?_, rfl⟩
  intro r
  unfold Users_to_message_new_alert
  simp only [List.mem_map, List.mem_filter, Bool.and_eq_true,
    List.isEmpty_iff]
  constructor
  · rintro ⟨u, ⟨hu, ⟨ha, hc⟩, hr⟩, hid⟩
    exact ⟨u, hu, hid, ha, hc, hid ▸ List.elem_iff.mp hr⟩
  · rintro ⟨u, hu, hid, ha, hc, hr⟩
    exact ⟨u, ⟨hu, ⟨ha, hc⟩, List.elem_iff.mpr (hid ▸ hr)⟩, hid⟩

/-- A user with no outstanding alerts, for the C5 witness. -/
def c5_user1 : User :=
  { record_id := 1, geometry := { x := 0, y := 0 }, subscribed := true,
    active_alerts := [], cached_alerts := [], messages_sent := 0,
    last_messaged := none }

/-- A user with an active alert, for the C5 witness store. -/
def c5_user2 : User :=
  { record_id := 2, geometry := { x := 0, y := 0 }, subscribed := true,
    active_alerts := [9], cached_alerts := [], messages_sent := 0,
    last_messaged := none }

/-- A store with one eligible and one ineligible user. -/
def c5_store : Store :=
  { stations := [], users := [c5_user1, c5_user2], archived_alerts := [],
    reports := [] }

/-- Witness for C5: the alert-free user 1 is returned. -/
theorem users_to_message_new_alert_spec_witness :
    (1 : Int) ∈ (Users_to_message_new_alert c5_store [1, 2]).2 :=
  ((users_to_message_new_alert_spec c5_store [1, 2]).2.1 1).mpr
    ⟨c5_user1, by decide, rfl, rfl, rfl, by decide⟩

/-! ### C7: Users_nearby_sensor -/

theorem mem_users_nearby {T : Point → Point} {st : Store} {sensor_index : Int}
    {distance : Int} {s : Station}
    (hs : st.stations.find? (fun s2 => s2.sensor_index == sensor_index) =
      some s) {r : Int} :
    r ∈ Users_nearby_sensor T st sensor_index distance ↔
      ∃ u, u ∈ st.users ∧ u.record_id = r ∧ u.subscribed = true ∧
        0 ≤ distance ∧
        dist2 (T u.geometry) (T s.geometry) ≤ distance * distance := by
  unfold Users_nearby_sensor
  rw [hs]
  simp only [List.mem_map, List.mem_filter, Bool.and_eq_true, ST_DWithin,
    decide_eq_true_eq]
  constructor
  · rintro ⟨u, ⟨hu, hsub, hd0, hd⟩, hr⟩
    exact ⟨u, hu, hr, hsub, hd0, hd⟩
  · rintro ⟨u, hu, hr, hsub, hd0, hd⟩
    exact ⟨u, ⟨hu, hsub, hd0, hd⟩, hr⟩

/-- C7: `Users_nearby_sensor` returns the empty list on an unknown sensor
identifier; for a known sensor it returns exactly the subscribed users whose
projected planar distance to the sensor is at most `D`; and enlarging the
distance never removes a returned identifier. -/
theorem users_nearby_sensor_spec (T : Point → Point) (st : Store)
    (sensor_index : Int) (D Dbig : Int) :
    (st.stations.find? (fun s => s.sensor_index == sensor_index) = none →
        Users_nearby_sensor T st sensor_index D = []) ∧
    (∀ s, st.stations.find? (fun s2 => s2.sensor_index == sensor_index) =
        some s →
        ∀ r, r ∈ Users_nearby_sensor T st sensor_index D ↔
          ∃ u, u ∈ st.users ∧ u.record_id = r ∧ u.subscribed = true ∧
            0 ≤ D ∧ dist2 (T u.geometry) (T s.geometry) ≤ D * D) ∧
    (0 ≤ D → D ≤ Dbig → ∀ r, r ∈ Users_nearby_sensor T st sensor_index D →
        r ∈ Users_nearby_sensor T st sensor_index Dbig) := by
  refine ⟨?_, ?_, ?_⟩
  · intro h
    unfold Users_nearby_sensor
    rw [h]
  · intro s hs r
    exact mem_users_nearby hs
  · intro hD0 hDD r hr
    cases hfind : st.stations.find?
        (fun s2 => s2.sensor_index == sensor_index) with
    | none =>
        unfold Users_nearby_sensor at hr
        rw [hfind] at hr
        exact absurd hr (List.not_mem_nil r)
    | some s =>
        rcases (mem_users_nearby hfind).mp hr with ⟨u, hu, hrid, hsub, _, hd⟩
        refine (mem_users_nearby hfind).mpr
          ⟨u, hu, hrid, hsub, hD0.trans hDD, hd.trans ?_⟩
        exact mul_le_mul hDD hDD hD0 (hD0.trans hDD)

/-- A station at the origin and a subscribed user at planar distance 5,
for the C7 witness. -/
def c7_store : Store :=
  { stations := [{ sensor_index := 1, geometry := { x := 0, y := 0 } }],
    users := [{ record_id := 1, geometry := { x := 3, y := 4 },
                subscribed := true, active_alerts := [], cached_alerts := [],
                messages_sent := 0, last_messaged := none }],
    archived_alerts := [], reports := [] }

/-- Witness for C7: the user within distance 5 is still returned at
distance 10 (monotonicity applied at a concrete store). -/
theorem users_nearby_sensor_spec_witness :
    (1 : Int) ∈ Users_nearby_sensor id c7_store 1 10 :=
  (users_nearby_sensor_spec id c7_store 1 5 10).2.2 (by decide) (by decide) 1
    (by decide)

end SpikeAlerts
